import Mathlib

/-!
Verification development for the rauc-hawkbit-updater hawkBit DDI client.

The definitions below are a shallow embedding of the C sources:
  * `src/unnamed/part_020` — hawkbit-client.c (DDI client, action coordinator,
    download worker, poll loop),
  * `src/unnamed/part_009` — hawkbit-client.h (enum ActionState, structs),
  * `src/unnamed/part_002` — config-file.h (struct Config),
  * `src/src/rauc-installer.c` — rauc_install and the install thread,
  * `src/src/config-file.c` — load_config_file.
External effects (HTTP transfers, JSON parsing, file stat, thread
interleavings observed at mutex acquisition) are supplied as oracle inputs;
the control flow, state writes and emitted feedback are translated from the
source line by line (line numbers cited in the comments refer to
`src/unnamed/part_020` unless stated otherwise).
-/

namespace RaucHawkbit

/-- `enum ActionState` from hawkbit-client.h (part_009 lines 54-63), in C
declaration order: NONE, CANCELED, ERROR, SUCCESS, PROCESSING, DOWNLOADING,
INSTALLING, CANCEL_REQUESTED. -/
inductive ActionState where
  | none
  | canceled
  | error
  | success
  | processing
  | downloading
  | installing
  | cancelRequested
deriving DecidableEq, Repr

/-- The numeric value of each `ActionState` enumerator as C assigns them
(declaration order, starting at 0).  The source compares states with `>=`
on these values (part_020 line 1055). -/
def ActionState.toNat : ActionState → Nat
  | .none => 0
  | .canceled => 1
  | .error => 2
  | .success => 3
  | .processing => 4
  | .downloading => 5
  | .installing => 6
  | .cancelRequested => 7

/-- `struct Config_` from config-file.h (part_002), restricted to the fields
the embedded functions read. -/
structure Config where
  hawkbit_server : String
  ssl : Bool
  ssl_verify : Bool
  post_update_reboot : Bool
  resume_downloads : Bool
  stream_bundle : Bool
  auth_token : Option String
  gateway_token : Option String
  tenant_id : String
  controller_id : String
  bundle_download_location : Option String
  retry_wait : Int
deriving DecidableEq, Repr

/-- `build_api_url` (part_020 lines 712-730): scheme selected by the ssl
flag, then `host/tenant/controller/v1/controllerId[/suffix]`. -/
def build_api_url (cfg : Config) (suffix : Option String) : String :=
  (if cfg.ssl then "https" else "http") ++ "://" ++ cfg.hawkbit_server ++ "/"
    ++ cfg.tenant_id ++ "/controller/v1/" ++ cfg.controller_id
    ++ (match suffix with
        | some s => "/" ++ s
        | Option.none => "")

/-- `get_auth_header` (part_020 lines 210-221): the target token takes
precedence, otherwise the gateway token; NULL when neither is set. -/
def get_auth_header (cfg : Config) : Option String :=
  match cfg.auth_token with
  | some t => some ("Authorization: TargetToken " ++ t)
  | Option.none =>
    match cfg.gateway_token with
    | some t => some ("Authorization: GatewayToken " ++ t)
    | Option.none => Option.none

/-- GError domains used by the client: the three quarks defined in
part_020 lines 73-86 plus `G_FILE_ERROR`. -/
inductive ErrDomain where
  | curl
  | http
  | file
  | client
deriving DecidableEq, Repr

/-- A `GError` as (domain, code). -/
structure GErr where
  domain : ErrDomain
  code : Int
deriving DecidableEq, Repr

/-- `g_error_matches(error, domain, code)` for a present error. -/
def g_error_matches (e : GErr) (d : ErrDomain) (c : Int) : Bool :=
  e.domain = d && e.code = c

/-- `resumable_codes` (part_020 lines 56-66), the CURLcode values in source
order (0 terminator dropped): CURLE_OPERATION_TIMEDOUT = 28,
CURLE_COULDNT_RESOLVE_HOST = 6, CURLE_COULDNT_CONNECT = 7,
CURLE_PARTIAL_FILE = 18, CURLE_SEND_ERROR = 55, CURLE_RECV_ERROR = 56,
CURLE_HTTP2 = 16, CURLE_HTTP2_STREAM = 92 (numeric values from curl.h). -/
def resumable_codes : List Int := [28, 6, 7, 18, 55, 56, 16, 92]

/-- The `resumable |= g_error_matches(error, RHU_HAWKBIT_CLIENT_CURL_ERROR,
*code)` accumulation loop of download_thread (part_020 lines 878-879). -/
def dl_resumable (e : GErr) : Bool :=
  resumable_codes.foldl (fun acc c => acc || g_error_matches e .curl c) false

/-- fopen mode chosen by `get_binary` (part_020 line 289):
`(resume_from) ? "ab+" : "wb+"`. -/
inductive FileMode where
  | wbPlus
  | abPlus
deriving DecidableEq, Repr

def get_binary_fopen_mode (resume_from : Int) : FileMode :=
  if resume_from ≠ 0 then .abPlus else .wbPlus

/-- C stdio semantics: "wb+" truncates an existing file, "ab+" appends. -/
def FileMode.truncates : FileMode → Bool
  | .wbPlus => true
  | .abPlus => false

/-- The per-attempt resume offset computed by download_thread (part_020
lines 866-872): `resume_from = 0; if (g_stat(file, &st) == 0)
resume_from = st.st_size;` — the stat result is the oracle input
(`some size` on stat success, `none` on failure). -/
def attempt_resume_from (statSize : Option Int) : Int :=
  match statSize with
  | some sz => sz
  | Option.none => 0

/-- `get_binary`'s success/error classification (part_020 lines 327-342):
a nonzero CURLcode yields a CURL-domain error; otherwise only HTTP
200/206/416 count as success, anything else yields an HTTP-domain error. -/
def get_binary_result (curl_code http_code : Int) : Option GErr :=
  if curl_code ≠ 0 then some ⟨.curl, curl_code⟩
  else if http_code ≠ 200 && http_code ≠ 206 && http_code ≠ 416 then
    some ⟨.http, http_code⟩
  else Option.none

/-- `RHUHawkbitClientError` (part_009 lines 18-26) plus the G_FILE_ERROR
kinds process_deployment raises (stat failure, NOSPC) and the JSON-path /
REST failures surfaced through GError. -/
inductive ClientErr where
  | alreadyInProgress
  | jsonPath (path : String)
  | restFail
  | multiChunks
  | multiArtifacts
  | statFail
  | noSpace
  | streamInstall
  | cancelation
deriving DecidableEq, Repr

/-- Detail messages carried by feedback requests.  Constructors stand for
the literal strings the source formats (printf arguments preserved as
constructor arguments):
  * `downloadComplete speed` — `"Download complete. %.2f MB/s"` (line 899),
  * `downloadFailed e` — `"Download failed: "` prefix plus the CURL error
    text for `e` (line 882),
  * `invalidChecksum name version got want` — `"Software: %s V%s. Invalid
    checksum: %s expected %s"` (lines 910-912),
  * `checksumOk` — `"File checksum OK."` (lines 921, 928),
  * `actionCanceled` — `"Action canceled."` (line 1283),
  * `cancelRejected` — `"Cancelation impossible, installation started
    already."` (line 1293),
  * `installedOk` — `"Software bundle installed successfully."` (line 805),
  * `installFailed` — `"Failed to install software bundle."` (line 806),
  * `deployError e` — the message of the GError reported on the
    `proc_error` path of process_deployment (line 1211),
  * `text s` — a verbatim progress line forwarded by hawkbit_progress. -/
inductive Msg where
  | downloadComplete (speed : Int)
  | downloadFailed (e : GErr)
  | invalidChecksum (name version got want : String)
  | checksumOk
  | actionCanceled
  | cancelRejected
  | installedOk
  | installFailed
  | deployError (e : ClientErr)
  | text (s : String)
deriving DecidableEq, Repr

/-- One feedback POST as built by `json_build_status`/`feedback`
(part_020 lines 538-640): target URL, action id (NULL modelled as `none`),
`status.result.finished`, `status.execution`, and the single detail. -/
structure Feedback where
  url : String
  id : Option String
  finished : String
  execution : String
  detail : Msg
deriving DecidableEq, Repr

/-- Observable events of the embedded code, in program order:
mutex operations on the active action's mutex, condvar signal, writes to
`active_action->state`, network I/O (REST GET, feedback POST, binary
download with its resume offset), the executor invocation
(`software_ready_cb`), and sleeps. -/
inductive Event where
  | lock
  | unlock
  | signal
  | write (s : ActionState)
  | restGet
  | fb (f : Feedback)
  | binDl (resume_from : Int)
  | busInstall
  | sleepMs (ms : Nat)
deriving DecidableEq, Repr

/-- Network/bus I/O events (REST request, feedback POST, binary download,
executor bus call). -/
def Event.isNetIO : Event → Bool
  | .restGet => true
  | .fb _ => true
  | .binDl _ => true
  | .busInstall => true
  | _ => false

/-- `anyNetUnderLock d tr` is true iff some network/bus I/O event of `tr`
happens while the action mutex is held (`d` = lock depth at the start). -/
def anyNetUnderLock : Nat → List Event → Bool
  | _, [] => false
  | d, .lock :: tr => anyNetUnderLock (d + 1) tr
  | d, .unlock :: tr => anyNetUnderLock (d - 1) tr
  | d, e :: tr => (e.isNetIO && decide (0 < d)) || anyNetUnderLock d tr

/-- True iff every binary-download transfer and every executor bus call in
`tr` happens with the action mutex released. -/
def dlBusReleased : Nat → List Event → Bool
  | _, [] => true
  | d, .lock :: tr => dlBusReleased (d + 1) tr
  | d, .unlock :: tr => dlBusReleased (d - 1) tr
  | d, .binDl _ :: tr => decide (d = 0) && dlBusReleased d tr
  | d, .busInstall :: tr => decide (d = 0) && dlBusReleased d tr
  | d, _ :: tr => dlBusReleased d tr

/-- True iff every feedback POST in `tr` happens while the action mutex is
held. -/
def fbUnderLock : Nat → List Event → Bool
  | _, [] => true
  | d, .lock :: tr => fbUnderLock (d + 1) tr
  | d, .unlock :: tr => fbUnderLock (d - 1) tr
  | d, .fb _ :: tr => decide (0 < d) && fbUnderLock d tr
  | d, _ :: tr => fbUnderLock d tr

/-- The feedback POSTs of a trace, in order. -/
def feedbacksOf (tr : List Event) : List Feedback :=
  tr.filterMap fun e =>
    match e with
    | .fb f => some f
    | _ => Option.none

/-- The writes to `active_action->state` of a trace, in order. -/
def writesOf (tr : List Event) : List ActionState :=
  tr.filterMap fun e =>
    match e with
    | .write s => some s
    | _ => Option.none

/-- `typedef struct Artifact_` (part_009 lines 103-112), with the string
fields non-null by the time download_thread runs. -/
structure Artifact where
  name : String
  version : String
  size : Int
  download_url : String
  feedback_url : String
  sha1 : String
  maintenance_window : Option String
  do_install : Bool
deriving DecidableEq, Repr

/-- Oracle for one iteration of the download loop (part_020 lines 863-896):
the `g_stat` result for the destination file, the `get_binary` outcome
(`ok (sha1sum, speed)` or the GError), and the action state the worker
observes at the post-failure cancel checkpoint (line 888). -/
structure DlAttempt where
  statSize : Option Int
  outcome : Except GErr (String × Int)
  postFailState : ActionState
deriving Repr

/-- What the download loop does after a failed `get_binary` attempt
(part_020 lines 878-896): report the failure unless the error is resumable
and `resume_downloads` is set; then honour a pending cancel request; else
sleep 500 ms and retry. -/
inductive AttemptDecision where
  | retry
  | failReport
  | cancelExit
deriving DecidableEq, Repr

def dl_attempt_decision (resume_downloads : Bool) (e : GErr)
    (checkpointState : ActionState) : AttemptDecision :=
  if !resume_downloads || !dl_resumable e then .failReport
  else if checkpointState = .cancelRequested then .cancelExit
  else .retry

/-- Result of a modelled download_thread run: its event trace, the last
state it wrote (`none` when the supplied attempt oracle ran out before the
loop finished), and the thread's return value. -/
structure DlOutput where
  events : List Event
  finalState : Option ActionState
  ret : Option Bool
deriving DecidableEq, Repr

/-- The tail of download_thread after `get_binary` succeeded (part_020
lines 898-956): "Download complete" progress feedback, sha1 validation,
the skip-install branches, the last-chance cancel check, and the handoff
to the install driver (`software_ready_cb`). `stateAt937` is the state
observed at the line-937 lock; `install_success` the installer outcome. -/
def dl_after_download (art : Artifact) (action_id : Option String)
    (sha1sum : String) (speed : Int) (stateAt937 : ActionState)
    (install_success : Bool) : List Event × ActionState × Bool :=
  let fbComplete : List Event :=
    [.lock, .fb ⟨art.feedback_url, action_id, "none", "proceeding",
                 .downloadComplete speed⟩, .unlock]
  if art.sha1 ≠ sha1sum then
    -- line 909: g_strcmp0(artifact->sha1, sha1sum) nonzero → report_err
    (fbComplete ++ [.lock,
      .fb ⟨art.feedback_url, action_id, "failure", "closed",
           .invalidChecksum art.name art.version sha1sum art.sha1⟩,
      .write .error, .signal, .unlock], .error, false)
  else if ¬art.do_install ∧
      (art.maintenance_window = Option.none ∨
       art.maintenance_window = some "available") then
    -- lines 916-927: download-only deployment, window open: keep the file
    (fbComplete ++ [.lock, .write .success,
      .fb ⟨art.feedback_url, action_id, "success", "downloaded",
           .checksumOk⟩, .unlock], .success, true)
  else
    let fbChecksum : List Event :=
      [.lock, .fb ⟨art.feedback_url, action_id, "none", "proceeding",
                   .checksumOk⟩, .unlock]
    if stateAt937 = .cancelRequested then
      -- lines 937-939: last chance to cancel before installing
      (fbComplete ++ fbChecksum ++
        [.lock, .write .canceled, .signal, .unlock], .canceled, false)
    else if ¬art.do_install then
      -- lines 942-946: download-only, window closed: action stays pending
      (fbComplete ++ fbChecksum ++
        [.lock, .write .none, .unlock], ActionState.none, true)
    else
      -- lines 950-956: start installation, cancelations impossible now
      (fbComplete ++ fbChecksum ++
        [.lock, .write .installing, .signal, .unlock, .busInstall],
       .installing, install_success)

/-- The `while (1)` download loop of download_thread (part_020 lines
863-896), one oracle entry per `get_binary` attempt.  Returns the events
and `some (finalState, returnValue)` once the run leaves the loop,
`none` when the oracle list is exhausted with a retry still pending. -/
def dl_run (cfg : Config) (art : Artifact) (action_id : Option String)
    (stateAt937 : ActionState) (install_success : Bool) :
    List DlAttempt → List Event × Option (ActionState × Bool)
  | [] => ([], Option.none)
  | a :: rest =>
    let off := attempt_resume_from a.statSize
    match a.outcome with
    | .ok (sha, speed) =>
      let (evs, st, ret) :=
        dl_after_download art action_id sha speed stateAt937 install_success
      (Event.binDl off :: evs, some (st, ret))
    | .error e =>
      match dl_attempt_decision cfg.resume_downloads e a.postFailState with
      | .failReport =>
        -- lines 881-884 → report_err (959-975): failure feedback, state
        -- := ERROR; the cancel label's CR test is false (state is ERROR)
        ([Event.binDl off, .lock,
          .fb ⟨art.feedback_url, action_id, "failure", "closed",
               .downloadFailed e⟩,
          .write .error, .signal, .unlock], some (.error, false))
      | .cancelExit =>
        -- lines 887-889 → cancel (966-975): state := CANCELED
        ([Event.binDl off, .lock, .write .canceled, .signal, .unlock],
         some (.canceled, false))
      | .retry =>
        -- lines 885-895: cancel checkpoint passed, sleep 0.5 s, retry
        let (evs, r) :=
          dl_run cfg art action_id stateAt937 install_success rest
        (Event.binDl off :: .lock :: .unlock :: .sleepMs 500 :: evs, r)

/-- `download_thread` (part_020 lines 835-976).  `entryState` is the state
observed at the line-854 lock; `action_id` the worker's view of
`active_action->id`. -/
def download_thread (cfg : Config) (art : Artifact)
    (entryState : ActionState) (action_id : Option String)
    (stateAt937 : ActionState) (install_success : Bool)
    (attempts : List DlAttempt) : DlOutput :=
  if entryState = .cancelRequested then
    -- lines 855-856 → cancel label: honoured before the download starts
    { events := [.lock, .write .canceled, .signal, .unlock],
      finalState := some .canceled, ret := some false }
  else
    -- lines 858-859: state := DOWNLOADING, mutex released for the download
    let (evs, r) :=
      dl_run cfg art action_id stateAt937 install_success attempts
    { events := .lock :: .write .downloading :: .unlock :: evs,
      finalState := r.map (·.1), ret := r.map (·.2) }

/-- JSON view of one artifact node of the deployment resource, each field
`none` when the json_get_* call for its path fails. -/
structure ArtJson where
  size : Option Int
  sha1 : Option String
  download_href : Option String
  download_http_href : Option String
deriving Repr

/-- JSON view of one chunk node. -/
structure ChunkJson where
  version : Option String
  name : Option String
  artifacts : Option (List ArtJson)
deriving Repr

/-- JSON view of the deployment resource fetched at part_020 line 1071. -/
structure DeployResp where
  maintenance_window : Option String
  download : Option String
  update : Option String
  idOpt : Option String
  chunks : Option (List ChunkJson)
deriving Repr

/-- Oracle inputs of one process_deployment call: the action state and id
at entry (the caller holds the mutex throughout, part_020 lines
1385-1387), the deploymentBase href, the GET result, the free-space probe,
and the streaming installer outcome. -/
structure DeployInputs where
  state0 : ActionState
  active_id : Option String
  href : Option String
  resp : Option DeployResp
  freespace : Option Int
  install_success : Bool
deriving Repr

/-- Result of a modelled process_deployment call: events (relative to the
caller-held mutex, i.e. at lock depth 1), the state as last written, the
action id afterwards, the C return value, the GError raised, and whether
the download thread was spawned. -/
structure DeployOutput where
  events : List Event
  finalState : ActionState
  newId : Option String
  res : Bool
  err : Option ClientErr
  spawned : Bool
deriving Repr

/-- The `proc_error` exit of process_deployment (part_020 lines 1210-1218):
failure feedback with the GError message, bundle cleanup, state := NONE. -/
def deploy_proc_error (feedback_url : String) (id : Option String)
    (err : ClientErr) (pre : List Event) : DeployOutput :=
  { events := pre ++ [.fb ⟨feedback_url, id, "failure", "closed",
                           .deployError err⟩, .write .none],
    finalState := .none, newId := id, res := false, err := some err,
    spawned := false }

/-- The `error` exit of process_deployment (part_020 lines 1213-1218):
bundle cleanup and state := NONE, no feedback. -/
def deploy_error (id : Option String) (err : ClientErr)
    (pre : List Event) : DeployOutput :=
  { events := pre ++ [.write .none], finalState := .none, newId := id,
    res := false, err := some err, spawned := false }

/-- `start_streaming_installation` (part_020 lines 989-1031), called with
the mutex held and the state threaded in (`st`, always PROCESSING here
since the mutex was never released after line 1063). -/
def start_streaming_installation (art : Artifact) (st : ActionState)
    (id : Option String) (install_success : Bool) (pre : List Event) :
    DeployOutput :=
  if st = .cancelRequested then
    -- lines 1002-1006: installation might already be canceled
    { events := pre ++ [.write .canceled, .signal],
      finalState := .canceled, newId := id, res := true, err := Option.none,
      spawned := false }
  else if ¬art.do_install then
    -- lines 1009-1012: skip installation
    { events := pre ++ [.write ActionState.none],
      finalState := .none, newId := id, res := true, err := Option.none,
      spawned := false }
  else if install_success then
    -- lines 1014-1030: unlock, run the installer, relock
    { events := pre ++ [.write .installing, .signal, .unlock, .busInstall,
                        .lock],
      finalState := .installing, newId := id, res := true,
      err := Option.none, spawned := false }
  else
    { events := pre ++ [.write .installing, .signal, .unlock, .busInstall,
                        .lock],
      finalState := .installing, newId := id, res := false,
      err := some .streamInstall, spawned := false }

/-- The artifact-extraction and scheduling part of `process_deployment`
(part_020 lines 1129-1208), after the action id has been adopted.
`json_get_array` cannot return an empty array (json-helper.c rejects
empty arrays with an error), so an empty chunks/artifacts list is mapped
to the same json-path error as an absent one. -/
def process_deployment_rest (cfg : Config) (r : DeployResp)
    (do_install : Bool) (newId : String) (fb_url : String)
    (inp : DeployInputs) (pre : List Event) : DeployOutput :=
  match r.chunks with
  | Option.none =>
    deploy_proc_error fb_url (some newId)
      (.jsonPath "$.deployment.chunks") pre
  | some chunks =>
    -- lines 1132-1136: more than one chunk is unsupported
    if 1 < chunks.length then
      deploy_proc_error fb_url (some newId) .multiChunks pre
    else
      match chunks.head? with
      | Option.none =>
        deploy_proc_error fb_url (some newId)
          (.jsonPath "$.deployment.chunks") pre
      | some chunk =>
        match chunk.artifacts with
        | Option.none =>
          deploy_proc_error fb_url (some newId) (.jsonPath "$.artifacts")
            pre
        | some arts =>
          -- lines 1144-1149: more than one artifact is unsupported
          if 1 < arts.length then
            deploy_proc_error fb_url (some newId) .multiArtifacts pre
          else
            match arts.head? with
            | Option.none =>
              deploy_proc_error fb_url (some newId)
                (.jsonPath "$.artifacts") pre
            | some artj =>
              match chunk.version with
              | Option.none =>
                deploy_proc_error fb_url (some newId)
                  (.jsonPath "$.version") pre
              | some version =>
                match chunk.name with
                | Option.none =>
                  deploy_proc_error fb_url (some newId)
                    (.jsonPath "$.name") pre
                | some name =>
                  -- lines 1162-1164: the C tests `!artifact->size &&
                  -- error`; a missing size (and the degenerate size-0
                  -- case) takes the proc_error path
                  match artj.size with
                  | Option.none =>
                    deploy_proc_error fb_url (some newId)
                      (.jsonPath "$.size") pre
                  | some size =>
                    if size = 0 then
                      deploy_proc_error fb_url (some newId)
                        (.jsonPath "$.size") pre
                    else
                    match artj.sha1 with
                    | Option.none =>
                      deploy_proc_error fb_url (some newId)
                        (.jsonPath "$.hashes.sha1") pre
                    | some sha1 =>
                      -- lines 1171-1179: favour the https download link
                      match artj.download_href.or artj.download_http_href
                      with
                      | Option.none =>
                        deploy_proc_error fb_url (some newId)
                          (.jsonPath "$._links.download{-http,}.href") pre
                      | some durl =>
                        let art : Artifact :=
                          { name := name, version := version, size := size,
                            download_url := durl, feedback_url := fb_url,
                            sha1 := sha1,
                            maintenance_window := r.maintenance_window,
                            do_install := do_install }
                        -- line 1185: the streaming path exits early
                        if cfg.stream_bundle then
                          start_streaming_installation art .processing
                            (some newId) inp.install_success pre
                        else
                          -- lines 1189-1198: free disk space check
                          match inp.freespace with
                          | Option.none =>
                            deploy_proc_error fb_url (some newId) .statFail
                              pre
                          | some free =>
                            if free < size then
                              deploy_proc_error fb_url (some newId) .noSpace
                                pre
                            else
                              -- lines 1200-1208: spawn the download thread
                              { events := pre, finalState := .processing,
                                newId := some newId, res := true,
                                err := Option.none, spawned := true }

/-- `process_deployment` (part_020 lines 1041-1219), translated branch by
branch.  The function runs under the caller's lock; its events are at
depth 1 except for the unlock/relock pair inside the streaming path. -/
def process_deployment (cfg : Config) (inp : DeployInputs) : DeployOutput :=
  -- lines 1055-1061: already-in-progress guard, C enum comparison
  if 4 ≤ inp.state0.toNat then
    { events := [], finalState := inp.state0, newId := inp.active_id,
      res := false, err := some .alreadyInProgress, spawned := false }
  else
    -- line 1063: state := PROCESSING
    let ev0 : List Event := [.write .processing]
    match inp.href with
    | Option.none =>
      deploy_error inp.active_id (.jsonPath "$._links.deploymentBase.href")
        ev0
    | some _ =>
      -- line 1071: GET the deployment resource (mutex still held)
      let ev1 := ev0 ++ [.restGet]
      match inp.resp with
      | Option.none => deploy_error inp.active_id .restFail ev1
      | some r =>
        match r.download with
        | Option.none =>
          deploy_error inp.active_id (.jsonPath "$.deployment.download") ev1
        | some dl =>
          if dl = "skip" then
            -- lines 1088-1093: hawkBit asked to skip the download
            { events := ev1 ++ [.write ActionState.none],
              finalState := .none, newId := inp.active_id, res := true,
              err := Option.none, spawned := false }
          else
            match r.update with
            | Option.none =>
              deploy_error inp.active_id (.jsonPath "$.deployment.update")
                ev1
            | some upd =>
              let do_install := upd != "skip"
              let temp_id := r.idOpt
              -- lines 1108-1112: `!artifact->do_install &&
              -- !g_strcmp0(temp_id, active_action->id)`: update=skip with
              -- unchanged id is still waiting (g_strcmp0 treats two NULLs
              -- as equal)
              if upd = "skip" ∧ temp_id = inp.active_id then
                { events := ev1 ++ [.write ActionState.none],
                  finalState := .none, newId := inp.active_id, res := true,
                  err := Option.none, spawned := false }
              else
                -- lines 1115-1124: cleanup on changed id, adopt the new id
                match temp_id with
                | Option.none =>
                  deploy_error Option.none (.jsonPath "$.id") ev1
                | some newId =>
                  let fb_url := build_api_url cfg
                    (some ("deploymentBase/" ++ newId ++ "/feedback"))
                  process_deployment_rest cfg r do_install newId fb_url
                    inp ev1

/-- Oracle inputs of one process_cancel call (part_020 lines 1228-1310):
whether `$._links.cancelAction.href` resolved, whether the GET succeeded,
the stopId, the active action's id, the state at the line-1260 lock, and
the state found when the line-1269 condvar wait loop exits (supplied by
the worker; irrelevant unless the wait is entered). -/
structure CancelInputs where
  href_ok : Bool
  rest_ok : Bool
  stop_id : Option String
  active_id : Option String
  state0 : ActionState
  stateAfterWait : ActionState
deriving Repr

/-- Result of a modelled process_cancel call.  `finalState = none` marks
the `g_assert_not_reached` default of the line-1276 switch (the process
aborts there). -/
structure CancelOutput where
  events : List Event
  finalState : Option ActionState
  res : Bool
  err : Option ClientErr
deriving Repr

/-- `process_cancel` (part_020 lines 1228-1310). -/
def process_cancel (cfg : Config) (inp : CancelInputs) : CancelOutput :=
  if ¬inp.href_ok then
    { events := [], finalState := some inp.state0, res := false,
      err := some (.jsonPath "$._links.cancelAction.href") }
  else if ¬inp.rest_ok then
    -- line 1244: GET of the cancel resource (before the mutex is taken)
    { events := [.restGet], finalState := some inp.state0, res := false,
      err := some .restFail }
  else
    match inp.stop_id with
    | Option.none =>
      { events := [.restGet], finalState := some inp.state0, res := false,
        err := some (.jsonPath "$.cancelAction.stopId") }
    | some sid =>
      let fb_url := build_api_url cfg
        (some ("cancelAction/" ++ sid ++ "/feedback"))
      let idMatch := some sid = inp.active_id
      -- lines 1260-1271: request cancelation and wait for the worker
      let entered := idMatch ∧
        (inp.state0 = .processing ∨ inp.state0 = .downloading)
      let evWait : List Event :=
        if entered then [.write .cancelRequested] else []
      let st1 := if entered then inp.stateAfterWait else inp.state0
      -- lines 1272-1273: unknown action: reset to NONE
      let evReset : List Event :=
        if ¬idMatch then [.write ActionState.none] else []
      let st2 := if ¬idMatch then ActionState.none else st1
      let pre := Event.restGet :: .lock :: (evWait ++ evReset)
      match st2 with
      | .none =>
        -- lines 1277-1285: acknowledge, also for unprocessed actions
        { events := pre ++ [.fb ⟨fb_url, some sid, "success", "closed",
                                 .actionCanceled⟩, .unlock],
          finalState := some .none, res := true, err := Option.none }
      | .canceled =>
        { events := pre ++ [.fb ⟨fb_url, some sid, "success", "closed",
                                 .actionCanceled⟩, .unlock],
          finalState := some .canceled, res := true, err := Option.none }
      | .success =>
        -- lines 1286-1288: installation succeeded already, no feedback
        { events := pre ++ [.unlock], finalState := some .success,
          res := true, err := Option.none }
      | .error =>
        -- lines 1289-1291: installation failed already, no feedback
        { events := pre ++ [.unlock], finalState := some .error,
          res := true, err := Option.none }
      | .installing =>
        -- lines 1292-1300: reject the cancelation
        { events := pre ++ [.fb ⟨fb_url, some sid, "success", "rejected",
                                 .cancelRejected⟩, .unlock],
          finalState := some .installing, res := false,
          err := some .cancelation }
      | _ =>
        -- lines 1301-1305: g_assert_not_reached
        { events := pre, finalState := Option.none, res := false,
          err := Option.none }

/-- `install_complete_cb` (part_020 lines 790-823): sets SUCCESS or ERROR,
sends the terminal feedback under the mutex, cleans up (and reboots when
configured; not evented). -/
def install_complete_cb (cfg : Config) (action_id : Option String)
    (install_success : Bool) : List Event :=
  let fb_url := build_api_url cfg
    (some ("deploymentBase/" ++ action_id.getD "(null)" ++ "/feedback"))
  [.lock,
   .write (if install_success then .success else .error),
   .fb ⟨fb_url, action_id,
        if install_success then "success" else "failure", "closed",
        if install_success then .installedOk else .installFailed⟩,
   .unlock]

/-- `hawkbit_progress` (part_020 lines 732-749): forwards one installer
progress line as none/proceeding feedback, under the mutex. -/
def hawkbit_progress (cfg : Config) (action_id : Option String)
    (msg : String) : List Event :=
  let fb_url := build_api_url cfg
    (some ("deploymentBase/" ++ action_id.getD "(null)" ++ "/feedback"))
  [.lock, .fb ⟨fb_url, action_id, "none", "proceeding", .text msg⟩,
   .unlock]

/-- `json_get_sleeptime` (part_020 lines 673-701).  The JSON lookup and
the `strptime` call are oracles: `sleep = none` models an absent/failed
`$.config.polling.sleep` lookup; `sleep = some parsed` a present string,
with `parsed = some (h, m, s)` when `strptime(str, "%T", &time)` fills the
struct and `parsed = none` when it fails.  `garbage_tm` is the content of
the stack-allocated `struct tm` that the C reads regardless of the
(unchecked) strptime result. -/
def json_get_sleeptime (cfg : Config) (state : ActionState)
    (sleep : Option (Option (Int × Int × Int)))
    (garbage_tm : Int × Int × Int) : Int :=
  if state = .processing ∨ state = .downloading ∨
      state = .cancelRequested then
    5
  else
    match sleep with
    | Option.none => cfg.retry_wait
    | some parsed =>
      let t := parsed.getD garbage_tm
      t.2.2 + t.2.1 * 60 + t.1 * 60 * 60

/-- `rauc_install`'s install thread outcome (src/src/rauc-installer.c):
`completed r` is the RAUC `completed(result)` signal (the loop only quits
for results ≥ 0, line 83, hence a Nat); every other outcome leaves
`status_result` at 2 (lines 38, 166-186, 228). -/
inductive InstallOutcome where
  | proxyFail
  | signalConnectFail
  | installCallFail
  | serviceDisappeared
  | completed (r : Nat)
deriving DecidableEq, Repr

/-- The terminal `status_result` of the install context. -/
def install_terminal_status : InstallOutcome → Int
  | .completed r => (r : Int)
  | _ => 2

/-- `rauc_install` (src/src/rauc-installer.c lines 207-249): spawns the
install thread; with `wait` it joins and returns `status_result == 0`,
without it returns TRUE immediately. -/
def rauc_install (wait : Bool) (outcome : InstallOutcome) : Bool :=
  if wait then decide (install_terminal_status outcome = 0) else true

/-- Oracle inputs of one `hawkbit_pull_cb` tick (part_020 lines
1336-1422): the base-poll result, which `_links` members the response
contains, the identify result, and the inputs of the deployment / cancel
handlers.  In run-once mode exactly one tick runs and `thread_download`
is NULL beforehand; `thread_result` is the download thread's return
value when one is spawned this tick. -/
structure PullInputs where
  base_ok : Bool
  has_configData : Bool
  identify_ok : Bool
  has_deploymentBase : Bool
  deploy : DeployInputs
  has_cancelAction : Bool
  cancel : CancelInputs
  thread_result : Bool
deriving Repr

/-- The value of the local `res` of `hawkbit_pull_cb` when the `out`
label's run-once block reads it: each handled section overwrites it
(lines 1356, 1377, 1386, 1399), and joining a spawned download thread
overwrites it once more (lines 1411-1414). -/
def pull_res (cfg : Config) (inp : PullInputs) : Bool :=
  if ¬inp.base_ok then false
  else
    let r1 := if inp.has_configData then inp.identify_ok else true
    let dout := process_deployment cfg inp.deploy
    let r2 := if inp.has_deploymentBase then dout.res else r1
    let r3 := if inp.has_cancelAction then (process_cancel cfg inp.cancel).res
              else r2
    if inp.has_deploymentBase ∧ dout.spawned then inp.thread_result else r3

/-- Run-once exit code: `hawkbit_start_service_sync` (part_020 line 1473)
maps `cdata.res` to `res ? 0 : 1`. -/
def run_once_exit_code (cfg : Config) (inp : PullInputs) : Nat :=
  if pull_res cfg inp then 0 else 1

/-- Modelled from the spec: the configuration key
`send_download_authentication` ("Whether to send authentication data
(token or client certificate) for download requests. […] Defaults to
``true``.", docs/reference.rst; CHANGES.rst release 1.4 entry [#174]).
The key's loader and its use inside `get_binary` are absent from the
sources under src/ (only the documentation, CHANGES and the
download-without-auth test fixture mention the feature), so the default
is modelled from the documentation: absent key ↦ true. -/
def load_send_download_authentication (key : Option Bool) : Bool :=
  key.getD true

/-- The request headers `get_binary` attaches (part_020 lines 317-324:
the hawkBit authorization header followed by
`Accept: application/octet-stream`), with the authorization header
guarded by `send_download_authentication`.  The guard is modelled from
the spec (see `load_send_download_authentication`); the header contents
come from the source (`set_auth_curl_header`/`get_auth_header`). -/
def get_binary_headers (cfg : Config)
    (send_download_authentication : Bool) : List String :=
  (if send_download_authentication then (get_auth_header cfg).toList
   else []) ++ ["Accept: application/octet-stream"]

/-- The writes to `active_action->state`, as a step relation
(observed state at the write's program point, written value).  Each
constructor is one assignment in the source, with the guard the
surrounding code establishes under the same mutex acquisition;
unconditional writes leave the prior state unconstrained.  Line numbers
refer to part_020. -/
inductive codeStep : ActionState → ActionState → Prop where
  /-- lines 1055-1063: process_deployment starts an action; the guard is
  the C enum comparison `state >= ACTION_STATE_PROCESSING`. -/
  | deploy_start (s : ActionState) (h : s.toNat < 4) :
      codeStep s .processing
  /-- lines 1088-1092: deployment.download=skip resets to NONE. -/
  | deploy_skip_download : codeStep .processing .none
  /-- lines 1108-1111: update=skip with unchanged id resets to NONE. -/
  | deploy_still_waiting : codeStep .processing .none
  /-- lines 1213-1216: the error/proc_error exits reset to NONE. -/
  | deploy_error_reset : codeStep .processing .none
  /-- lines 1002-1004: streaming entry honours a pending cancel. -/
  | stream_cancel : codeStep .cancelRequested .canceled
  /-- lines 1009-1010: streaming with update=skip resets to NONE. -/
  | stream_skip : codeStep .processing .none
  /-- line 1014: streaming transitions to INSTALLING. -/
  | stream_install : codeStep .processing .installing
  /-- lines 855-856 with 966-968: worker entry honours a pending cancel. -/
  | dl_entry_cancel : codeStep .cancelRequested .canceled
  /-- line 858: the worker marks DOWNLOADING (only the CANCEL_REQUESTED
  case was excluded at line 855). -/
  | dl_start (s : ActionState) (h : s ≠ .cancelRequested) :
      codeStep s .downloading
  /-- lines 887-889 with 966-968: the retry checkpoint honours a pending
  cancel. -/
  | dl_retry_cancel : codeStep .cancelRequested .canceled
  /-- line 964: report_err marks ERROR unconditionally. -/
  | dl_report_err (s : ActionState) : codeStep s .error
  /-- line 920: download-only success marks SUCCESS unconditionally. -/
  | dl_mark_downloaded (s : ActionState) : codeStep s .success
  /-- line 938 with 966-968: the last-chance checkpoint honours a pending
  cancel. -/
  | dl_last_chance_cancel : codeStep .cancelRequested .canceled
  /-- lines 942-943: download-only with closed window resets to NONE
  (CANCEL_REQUESTED was excluded at line 938 under the same lock). -/
  | dl_skip_install (s : ActionState) (h : s ≠ .cancelRequested) :
      codeStep s .none
  /-- line 950: the worker marks INSTALLING (CANCEL_REQUESTED excluded at
  line 938 under the same lock). -/
  | dl_install (s : ActionState) (h : s ≠ .cancelRequested) :
      codeStep s .installing
  /-- lines 1261-1267: a matching cancel request in PROCESSING or
  DOWNLOADING marks CANCEL_REQUESTED. -/
  | cancel_request (s : ActionState)
      (h : s = .processing ∨ s = .downloading) :
      codeStep s .cancelRequested
  /-- lines 1272-1273: a cancel whose stopId differs from the active id
  resets to NONE unconditionally. -/
  | cancel_unknown_reset (s : ActionState) : codeStep s .none
  /-- line 801: install completion marks SUCCESS unconditionally. -/
  | install_complete_success (s : ActionState) : codeStep s .success
  /-- line 801: install completion marks ERROR unconditionally. -/
  | install_complete_failure (s : ActionState) : codeStep s .error

/-- The spec's progress order (spec §3: None < Processing < Downloading <
Installing < {Success | Error}), with CancelRequested interpolated between
Downloading and Installing (it is requested only from Processing or
Downloading and precedes Installing) and Canceled terminal. -/
def specRank : ActionState → Nat
  | .none => 0
  | .processing => 1
  | .downloading => 2
  | .cancelRequested => 3
  | .installing => 4
  | .success => 5
  | .error => 5
  | .canceled => 6

/-- The claim's allowed transitions: strictly forward in the spec's
progress order, or into Canceled from {Processing, Downloading,
CancelRequested}, or the reset to None after a completed or canceled
action. -/
def claimC1Allowed (s s' : ActionState) : Bool :=
  (decide (specRank s < specRank s') && s' != .canceled && s' != .none)
  || (s' == .canceled &&
      (s == .processing || s == .downloading || s == .cancelRequested))
  || (s' == .none && (s == .success || s == .error || s == .canceled))

/-- The transitions the code actually performs (amended claim): the
target state determines the admissible sources. -/
def amendedAllowed (s s' : ActionState) : Bool :=
  match s' with
  | .processing => decide (s.toNat < 4)
  | .downloading => s != .cancelRequested
  | .installing => s != .cancelRequested
  | .canceled => s == .cancelRequested
  | .cancelRequested => s == .processing || s == .downloading
  | .none => true
  | .success => true
  | .error => true

/-- The attempt offset the claim describes for C5 (spec §4.5 step 2):
the existing size only when resuming is enabled, else 0. -/
def specAttemptOffset (resume_downloads : Bool)
    (statSize : Option Int) : Int :=
  if resume_downloads then statSize.getD 0 else 0

/-- The poll interval the claim describes for C9: fixed 5 s while a
deployment or cancel is active (which includes an action being
installed), else the parsed HH:MM:SS value, with `retry_wait` as the
fallback for an absent or unparseable sleep value. -/
def spec_sleeptime (cfg : Config) (state : ActionState)
    (sleep : Option (Option (Int × Int × Int))) : Int :=
  if state = .processing ∨ state = .downloading ∨
      state = .cancelRequested ∨ state = .installing then
    5
  else
    match sleep with
    | some (some t) => t.2.2 + t.2.1 * 60 + t.1 * 60 * 60
    | _ => cfg.retry_wait

/-- "Every step of the run-once cycle succeeded" as the claim for C8
states it: base poll, identification, deployment processing, cancel
processing and the download/install thread must each succeed when
performed. -/
def claimC8AllOk (cfg : Config) (inp : PullInputs) : Bool :=
  inp.base_ok
  && (!inp.has_configData || inp.identify_ok)
  && (!inp.has_deploymentBase || (process_deployment cfg inp.deploy).res)
  && (!inp.has_cancelAction || (process_cancel cfg inp.cancel).res)
  && (!(inp.has_deploymentBase
         && (process_deployment cfg inp.deploy).spawned)
      || inp.thread_result)

/-- The deployment section of `hawkbit_pull_cb` (part_020 lines
1383-1394): the mutex is taken, process_deployment runs, the mutex is
released. -/
def pull_deployment_events (cfg : Config) (inp : DeployInputs) :
    List Event :=
  .lock :: (process_deployment cfg inp).events ++ [.unlock]

/-- A concrete configuration used by the closed witnesses and
counterexamples (values as in the example configuration of the
reference documentation). -/
def cfg0 : Config :=
  { hawkbit_server := "10.10.0.254:8080", ssl := false, ssl_verify := false,
    post_update_reboot := false, resume_downloads := false,
    stream_bundle := false, auth_token := some "cb115a",
    gateway_token := Option.none, tenant_id := "DEFAULT",
    controller_id := "test-target",
    bundle_download_location := some "/tmp/bundle.raucb",
    retry_wait := 300 }

/-- A concrete artifact used by the closed witnesses and
counterexamples. -/
def art0 : Artifact :=
  { name := "fw", version := "1.0", size := 10,
    download_url := "https://h/fw.raucb",
    feedback_url := "http://10.10.0.254:8080/DEFAULT/controller/v1/test-target/deploymentBase/42/feedback",
    sha1 := "d34db33f", maintenance_window := Option.none,
    do_install := true }

/-- Deployment inputs with the active action left in SUCCESS by an
earlier download-only deployment. -/
def deployInpFromSuccess : DeployInputs :=
  { state0 := .success, active_id := some "42", href := Option.none,
    resp := Option.none, freespace := Option.none, install_success := false }

/-- C1: every state write of the coordinator/worker entry points is one of
the transitions the code admits: a new deployment (re)starts Processing
from any state numerically below PROCESSING in the C enum (None, Canceled,
Error, Success); Downloading and Installing are entered from any state
except CancelRequested; Canceled is entered only from CancelRequested;
CancelRequested only from Processing or Downloading; resets to None and
the terminal Success/Error writes are unguarded. -/
theorem C1_state_transitions_amended (s s' : ActionState)
    (h : codeStep s s') : amendedAllowed s s' = true := by
  cases h <;> simp_all [amendedAllowed]

/-- C1 witness: the initial None → Processing transition of a fresh
deployment is admitted. -/
theorem C1_state_transitions_witness :
    (ActionState.none).toNat < 4 ∧
    amendedAllowed .none .processing = true :=
  ⟨by decide,
   C1_state_transitions_amended _ _ (codeStep.deploy_start _ (by decide))⟩

/-- C1 counterexample: process_deployment restarts an action from SUCCESS
(left behind by a completed download-only deployment, part_020 lines
918-926) straight to PROCESSING — a backward move in the spec's progress
order that is not a reset to None, so the claimed invariant fails. -/
theorem C1_state_transitions_counterexample :
    codeStep .success .processing ∧
    claimC1Allowed .success .processing = false :=
  ⟨codeStep.deploy_start _ (by decide), by decide⟩

/-- C3 (amended): process_deployment returns the already-in-progress error
without any event (hence no feedback and no state change) exactly when the
entry state is ≥ ACTION_STATE_PROCESSING in C enum order, i.e. one of
{Processing, Downloading, Installing, CancelRequested}. -/
theorem C3_already_in_progress_amended (cfg : Config) (inp : DeployInputs)
    (h : 4 ≤ inp.state0.toNat) :
    (process_deployment cfg inp).err = some .alreadyInProgress ∧
    (process_deployment cfg inp).events = [] ∧
    feedbacksOf (process_deployment cfg inp).events = [] ∧
    (process_deployment cfg inp).finalState = inp.state0 ∧
    (process_deployment cfg inp).res = false := by
  simp [process_deployment, if_pos h, feedbacksOf]

/-- C3 witness: a deployment arriving while installing is refused without
feedback. -/
theorem C3_already_in_progress_witness :
    4 ≤ (ActionState.installing).toNat ∧
    (process_deployment cfg0
      { state0 := .installing, active_id := some "42", href := Option.none,
        resp := Option.none, freespace := Option.none,
        install_success := false }).err = some .alreadyInProgress :=
  ⟨by decide, (C3_already_in_progress_amended cfg0 _ (by decide)).1⟩

/-- C3 counterexample: SUCCESS is ≥ Processing in the spec's progress
order, yet process_deployment does not raise already-in-progress there
(the C comparison uses declaration order, where SUCCESS = 3 <
PROCESSING = 4): the call proceeds, and here ends in a json-path error
that resets the state. -/
theorem C3_already_in_progress_counterexample :
    specRank .processing ≤ specRank .success ∧
    (process_deployment cfg0 deployInpFromSuccess).err ≠
      some .alreadyInProgress ∧
    (process_deployment cfg0 deployInpFromSuccess).finalState ≠ .success :=
  ⟨by decide, by decide, by decide⟩

/-- C4 (amended): a failed download attempt is retried iff
`resume_downloads` is set, the error is one of exactly the eight
resumable CURL codes, and no cancelation has been requested at the
post-failure checkpoint (in which case the worker cancels instead);
a non-resumable error (or `resume_downloads=false`) reports failure; and
the retry prepends the 500 ms sleep to the next attempt. -/
theorem C4_download_retry_amended (resume : Bool) (e : GErr)
    (chk : ActionState) :
    (dl_attempt_decision resume e chk = .retry ↔
       resume = true ∧ dl_resumable e = true ∧ chk ≠ .cancelRequested) ∧
    (dl_attempt_decision resume e chk = .failReport ↔
       ¬(resume = true ∧ dl_resumable e = true)) ∧
    (dl_resumable e = true ↔
       e.domain = .curl ∧
       (e.code = 28 ∨ e.code = 6 ∨ e.code = 7 ∨ e.code = 18 ∨
        e.code = 55 ∨ e.code = 56 ∨ e.code = 16 ∨ e.code = 92)) ∧
    (∀ (cfg : Config) (art : Artifact) (id : Option String)
       (st : ActionState) (ok : Bool) (a : DlAttempt)
       (rest : List DlAttempt) (e' : GErr),
       a.outcome = .error e' →
       dl_attempt_decision cfg.resume_downloads e' a.postFailState =
         .retry →
       (dl_run cfg art id st ok (a :: rest)).1 =
         Event.binDl (attempt_resume_from a.statSize) :: .lock :: .unlock ::
           .sleepMs 500 :: (dl_run cfg art id st ok rest).1) := by
  refine ⟨?_, ?_, ?_, ?_⟩
  · cases resume <;> cases hr : dl_resumable e <;>
      by_cases h3 : chk = .cancelRequested <;>
      simp [dl_attempt_decision, hr, h3]
  · cases resume <;> cases hr : dl_resumable e <;>
      by_cases h3 : chk = .cancelRequested <;>
      simp [dl_attempt_decision, hr, h3]
  · rcases e with ⟨d, c⟩
    cases d <;>
      (simp [dl_resumable, resumable_codes, g_error_matches]; try tauto)
  · intro cfg art id st ok a rest e' ha hd
    simp [dl_run, ha, hd]

/-- C4 witness: with resume_downloads enabled, a recv-error (CURLE 56)
attempt with no pending cancel retries after the 500 ms sleep. -/
theorem C4_download_retry_witness :
    (DlAttempt.mk (some 4) (.error ⟨.curl, 56⟩) .downloading).outcome =
      .error ⟨.curl, 56⟩ ∧
    dl_attempt_decision
      ({ cfg0 with resume_downloads := true } : Config).resume_downloads
      ⟨.curl, 56⟩
      (DlAttempt.mk (some 4) (.error ⟨.curl, 56⟩) .downloading).postFailState
      = .retry ∧
    (dl_run { cfg0 with resume_downloads := true } art0 (some "42")
        .downloading true
        [DlAttempt.mk (some 4) (.error ⟨.curl, 56⟩) .downloading]).1 =
      Event.binDl 4 :: .lock :: .unlock :: .sleepMs 500 ::
        (dl_run { cfg0 with resume_downloads := true } art0 (some "42")
          .downloading true []).1 :=
  ⟨rfl, by decide,
   (C4_download_retry_amended true ⟨.curl, 56⟩ .downloading).2.2.2
     { cfg0 with resume_downloads := true } art0 (some "42") .downloading
     true _ [] ⟨.curl, 56⟩ rfl (by decide)⟩

/-- C4 counterexample: the error is resumable and resume_downloads=true,
yet no retry happens when a cancelation was requested at the checkpoint —
the worker cancels, refuting the claimed "if and only if". -/
theorem C4_download_retry_counterexample :
    dl_resumable ⟨.curl, 56⟩ = true ∧
    dl_attempt_decision true ⟨.curl, 56⟩ .cancelRequested = .cancelExit ∧
    dl_attempt_decision true ⟨.curl, 56⟩ .cancelRequested ≠ .retry := by
  decide

/-- C5 (amended): at each attempt the worker stats the destination and
uses the existing size as the resume offset whenever the stat succeeds —
regardless of the resume_downloads configuration (that flag only gates
retrying, part_020 line 881) — and get_binary truncates the file exactly
when the offset is 0. -/
theorem C5_resume_offset_amended (st : Option Int) (off : Int) :
    attempt_resume_from st = st.getD 0 ∧
    ((get_binary_fopen_mode off).truncates = true ↔ off = 0) := by
  constructor
  · cases st <;> rfl
  · by_cases h : off = 0 <;>
      simp [get_binary_fopen_mode, h, FileMode.truncates]

/-- C5 counterexample: with resume_downloads=false and a leftover 5-byte
file, the code resumes from offset 5 and opens in append mode (no
truncation), while the claim demands offset 0 and truncation. -/
theorem C5_resume_offset_counterexample :
    cfg0.resume_downloads = false ∧
    attempt_resume_from (some 5) = 5 ∧
    specAttemptOffset cfg0.resume_downloads (some 5) = 0 ∧
    (get_binary_fopen_mode (attempt_resume_from (some 5))).truncates =
      false := by
  decide

/-- C7 (spec-modelled): with send_download_authentication=false the binary
download carries no Authorization header; the key defaults to true when
absent, and then the configured hawkBit Authorization header is attached
ahead of the Accept header. -/
theorem C7_download_auth_header (cfg : Config) :
    get_binary_headers cfg false = ["Accept: application/octet-stream"] ∧
    load_send_download_authentication Option.none = true ∧
    (∀ a, get_auth_header cfg = some a →
       get_binary_headers cfg true = [a, "Accept: application/octet-stream"])
    := by
  refine ⟨rfl, rfl, ?_⟩
  intro a h
  simp [get_binary_headers, h]

/-- C7 witness: the concrete configuration's target token is sent when
authentication is enabled (and the default applies when the key is
absent). -/
theorem C7_download_auth_header_witness :
    get_auth_header cfg0 = some "Authorization: TargetToken cb115a" ∧
    get_binary_headers cfg0 true =
      ["Authorization: TargetToken cb115a",
       "Accept: application/octet-stream"] :=
  ⟨rfl, (C7_download_auth_header cfg0).2.2 _ rfl⟩

/-- C9 (amended): the interval is a fixed 5 s exactly while the action
state is Processing, Downloading or CancelRequested (Installing is
excluded: the source checks only these three states, part_020 lines
684-686); otherwise an absent `$.config.polling.sleep` falls back to
retry_wait, and a parseable HH:MM:SS value is converted to seconds.  A
present but unparseable value is computed from the uninitialized
`struct tm` (the strptime result is never checked), not from retry_wait. -/
theorem C9_sleeptime_amended (cfg : Config) (st : ActionState)
    (sleep : Option (Option (Int × Int × Int))) (g : Int × Int × Int) :
    (st = .processing ∨ st = .downloading ∨ st = .cancelRequested →
       json_get_sleeptime cfg st sleep g = 5) ∧
    (¬(st = .processing ∨ st = .downloading ∨ st = .cancelRequested) →
       sleep = Option.none →
       json_get_sleeptime cfg st sleep g = cfg.retry_wait) ∧
    (¬(st = .processing ∨ st = .downloading ∨ st = .cancelRequested) →
       ∀ h m s : Int, sleep = some (some (h, m, s)) →
       json_get_sleeptime cfg st sleep g = s + m * 60 + h * 60 * 60) := by
  refine ⟨fun h => ?_, fun h he => ?_, fun h hm mm ss he => ?_⟩
  · simp [json_get_sleeptime, h]
  · simp [json_get_sleeptime, h, he]
  · simp [json_get_sleeptime, h, he]

/-- C9 witness: while a download is in progress the interval is 5 s. -/
theorem C9_sleeptime_witness :
    (ActionState.downloading = .processing ∨
     ActionState.downloading = .downloading ∨
     ActionState.downloading = .cancelRequested) ∧
    json_get_sleeptime cfg0 .downloading Option.none (0, 0, 0) = 5 :=
  ⟨Or.inr (Or.inl rfl),
   (C9_sleeptime_amended cfg0 .downloading Option.none (0, 0, 0)).1
     (Or.inr (Or.inl rfl))⟩

/-- C9 counterexample: a present but unparseable sleep string (strptime
fails, the stack `struct tm` holds 1:02:03) makes the code return 3723
seconds, not the configured retry_wait of 300 as the claim demands. -/
theorem C9_sleeptime_counterexample :
    json_get_sleeptime cfg0 .none (some Option.none) (1, 2, 3) = 3723 ∧
    spec_sleeptime cfg0 .none (some Option.none) = 300 ∧
    (3723 : Int) ≠ 300 := by
  decide

/-- C10: with wait=false rauc_install returns TRUE whatever the install
thread later reports; with wait=true it returns TRUE exactly when the
terminal status is 0. -/
theorem C10_rauc_install_wait (outcome : InstallOutcome) :
    rauc_install false outcome = true ∧
    (rauc_install true outcome = true ↔
       install_terminal_status outcome = 0) := by
  constructor
  · rfl
  · simp [rauc_install]

/-- C2: once the stopId is known, process_cancel sends exactly one cancel
feedback to the cancelAction feedback URL: success/closed with
"Action canceled." when it ends with the action Canceled or with an
unknown/unprocessed stopId (state None); success/rejected with
"Cancelation impossible, installation started already." when the
installation already started; and none at all when the action already
ended in Success or Error.  The hypotheses state that the worker's
condvar handshake left a settled state (it never hands back
CancelRequested/Processing/Downloading) and that no cancel request was
already pending. -/
theorem C2_cancel_feedback (cfg : Config) (inp : CancelInputs)
    (sid : String)
    (h1 : inp.href_ok = true) (h2 : inp.rest_ok = true)
    (h3 : inp.stop_id = some sid)
    (h4 : inp.state0 ≠ .cancelRequested)
    (h5 : inp.stateAfterWait ≠ .cancelRequested)
    (h6 : inp.stateAfterWait ≠ .processing)
    (h7 : inp.stateAfterWait ≠ .downloading) :
    ((process_cancel cfg inp).finalState = some ActionState.none ∨
       (process_cancel cfg inp).finalState = some .canceled →
       feedbacksOf (process_cancel cfg inp).events =
         [⟨build_api_url cfg (some ("cancelAction/" ++ sid ++ "/feedback")),
           some sid, "success", "closed", .actionCanceled⟩]) ∧
    ((process_cancel cfg inp).finalState = some .installing →
       feedbacksOf (process_cancel cfg inp).events =
         [⟨build_api_url cfg (some ("cancelAction/" ++ sid ++ "/feedback")),
           some sid, "success", "rejected", .cancelRejected⟩]) ∧
    ((process_cancel cfg inp).finalState = some .success ∨
       (process_cancel cfg inp).finalState = some .error →
       feedbacksOf (process_cancel cfg inp).events = []) := by
  rcases inp with ⟨ho, hr, sids, aid, s0, sw⟩
  simp only at h1 h2 h3 h4 h5 h6 h7
  subst h1 h2 h3
  by_cases hm : some sid = aid <;> cases s0 <;> cases sw <;>
    simp_all [process_cancel, feedbacksOf]

/-- C2 witness: a matching cancel arriving while the action is installing
is rejected with exactly one success/rejected feedback. -/
theorem C2_cancel_feedback_witness :
    (process_cancel cfg0
        { href_ok := true, rest_ok := true, stop_id := some "42",
          active_id := some "42", state0 := .installing,
          stateAfterWait := .none }).finalState = some .installing ∧
    feedbacksOf (process_cancel cfg0
        { href_ok := true, rest_ok := true, stop_id := some "42",
          active_id := some "42", state0 := .installing,
          stateAfterWait := .none }).events =
      [⟨build_api_url cfg0 (some "cancelAction/42/feedback"),
        some "42", "success", "rejected", .cancelRejected⟩] :=
  ⟨by decide,
   (C2_cancel_feedback cfg0
       { href_ok := true, rest_ok := true, stop_id := some "42",
         active_id := some "42", state0 := .installing,
         stateAfterWait := .none } "42" rfl rfl rfl
       (by decide) (by decide) (by decide) (by decide)).2.1 (by decide)⟩

/-- Helper: the download loop performs every binary transfer with the
mutex released and every feedback POST with it held. -/
lemma dl_run_mutex_ok (cfg : Config) (art : Artifact) (id : Option String)
    (st : ActionState) (ok : Bool) (atts : List DlAttempt) :
    dlBusReleased 0 (dl_run cfg art id st ok atts).1 = true ∧
    fbUnderLock 0 (dl_run cfg art id st ok atts).1 = true := by
  induction atts with
  | nil => exact ⟨rfl, rfl⟩
  | cons a rest ih =>
    rcases a with ⟨ss, outc, pfs⟩
    rcases outc with e | ⟨sha, speed⟩
    · cases hd : dl_attempt_decision cfg.resume_downloads e pfs <;>
        simp_all [dl_run, dlBusReleased, fbUnderLock]
    · refine ⟨?_, ?_⟩ <;>
      · simp only [dl_run, dl_after_download]
        repeat' split
        all_goals simp [dlBusReleased, fbUnderLock]

/-- Helper: the download worker as a whole keeps the binary transfers and
the executor call outside the mutex and the feedback POSTs inside it. -/
lemma download_thread_mutex_ok (cfg : Config) (art : Artifact)
    (es : ActionState) (id : Option String) (st : ActionState) (ok : Bool)
    (atts : List DlAttempt) :
    dlBusReleased 0 (download_thread cfg art es id st ok atts).events =
      true ∧
    fbUnderLock 0 (download_thread cfg art es id st ok atts).events =
      true := by
  by_cases he : es = .cancelRequested
  · simp [download_thread, he, dlBusReleased, fbUnderLock]
  · rcases hdl : dl_run cfg art id st ok atts with ⟨evs, r⟩
    have h := dl_run_mutex_ok cfg art id st ok atts
    rw [hdl] at h
    simp [download_thread, he, hdl, dlBusReleased, fbUnderLock, h.1, h.2]

/-- Helper: a trailing unlock does not affect the transfer check. -/
lemma dlBusReleased_append_unlock (evs : List Event) :
    ∀ d, dlBusReleased d (evs ++ [Event.unlock]) = dlBusReleased d evs := by
  induction evs with
  | nil => intro d; rfl
  | cons e tl ih => intro d; cases e <;> simp [dlBusReleased, ih]

/-- Helper: a trailing unlock does not affect the feedback check. -/
lemma fbUnderLock_append_unlock (evs : List Event) :
    ∀ d, fbUnderLock d (evs ++ [Event.unlock]) = fbUnderLock d evs := by
  induction evs with
  | nil => intro d; rfl
  | cons e tl ih => intro d; cases e <;> simp [fbUnderLock, ih]

/-- Helper: the artifact-extraction tail of process_deployment, called
with the prefix it receives in process_deployment, keeps the executor
call outside the mutex and the feedback POSTs inside it (depth 1 = the
caller's lock). -/
lemma deploy_rest_mutex_ok (cfg : Config) (r : DeployResp) (di : Bool)
    (nid : String) (fb : String) (inp : DeployInputs) :
    dlBusReleased 1 (process_deployment_rest cfg r di nid fb inp
      [Event.write .processing, .restGet]).events = true ∧
    fbUnderLock 1 (process_deployment_rest cfg r di nid fb inp
      [Event.write .processing, .restGet]).events = true := by
  rcases r with ⟨mw, dlo, updo, ido, cho⟩
  rcases cho with _ | chunks
  · simp [process_deployment_rest, deploy_proc_error, dlBusReleased,
          fbUnderLock]
  · by_cases hc : 1 < chunks.length
    · simp [process_deployment_rest, hc, deploy_proc_error, dlBusReleased,
            fbUnderLock]
    · rcases hh : chunks.head? with _ | ⟨cv, cn, caro⟩
      · simp [process_deployment_rest, hc, hh, deploy_proc_error,
              dlBusReleased, fbUnderLock]
      · rcases caro with _ | arts
        · simp [process_deployment_rest, hc, hh, deploy_proc_error,
                dlBusReleased, fbUnderLock]
        · by_cases ha : 1 < arts.length
          · simp [process_deployment_rest, hc, hh, ha, deploy_proc_error,
                  dlBusReleased, fbUnderLock]
          · rcases hha : arts.head? with _ | ⟨szo, shao, dho, dhho⟩
            · simp [process_deployment_rest, hc, hh, ha, hha,
                    deploy_proc_error, dlBusReleased, fbUnderLock]
            · rcases cv with _ | v
              · simp [process_deployment_rest, hc, hh, ha, hha,
                      deploy_proc_error, dlBusReleased, fbUnderLock]
              · rcases cn with _ | n
                · simp [process_deployment_rest, hc, hh, ha, hha,
                        deploy_proc_error, dlBusReleased, fbUnderLock]
                · rcases szo with _ | sz
                  · simp [process_deployment_rest, hc, hh, ha, hha,
                          deploy_proc_error, dlBusReleased, fbUnderLock]
                  · by_cases hsz : sz = 0
                    · simp [process_deployment_rest, hc, hh, ha, hha, hsz,
                            deploy_proc_error, dlBusReleased, fbUnderLock]
                    · rcases shao with _ | sha
                      · simp [process_deployment_rest, hc, hh, ha, hha,
                              hsz, deploy_proc_error, dlBusReleased,
                              fbUnderLock]
                      · rcases hdu : dho.or dhho with _ | du
                        · simp [process_deployment_rest, hc, hh, ha, hha,
                                hsz, hdu, deploy_proc_error, dlBusReleased,
                                fbUnderLock]
                        · by_cases hst : cfg.stream_bundle = true
                          · cases di <;>
                              by_cases hi : inp.install_success = true <;>
                              simp [process_deployment_rest, hc, hh, ha,
                                    hha, hsz, hdu, hst, hi,
                                    start_streaming_installation,
                                    deploy_proc_error, dlBusReleased,
                                    fbUnderLock]
                          · rcases fso : inp.freespace with _ | free
                            · simp [process_deployment_rest, hc, hh, ha,
                                    hha, hsz, hdu, hst, fso,
                                    deploy_proc_error, dlBusReleased,
                                    fbUnderLock]
                            · by_cases hfree : free < sz <;>
                                simp [process_deployment_rest, hc, hh, ha,
                                      hha, hsz, hdu, hst, fso, hfree,
                                      deploy_proc_error, dlBusReleased,
                                      fbUnderLock]

/-- Helper: process_deployment (run under the caller's lock, depth 1)
keeps the executor call of the streaming path outside the mutex and its
feedback POSTs inside it. -/
lemma deploy_events_mutex_ok (cfg : Config) (inp : DeployInputs) :
    dlBusReleased 1 (process_deployment cfg inp).events = true ∧
    fbUnderLock 1 (process_deployment cfg inp).events = true := by
  rcases inp with ⟨s0, aid, href, resp, fs, isucc⟩
  by_cases hg : 4 ≤ s0.toNat
  · simp [process_deployment, hg, dlBusReleased, fbUnderLock]
  · rcases href with _ | href
    · simp [process_deployment, hg, deploy_error, dlBusReleased,
            fbUnderLock]
    · rcases resp with _ | ⟨mw, dlo, updo, ido, cho⟩
      · simp [process_deployment, hg, deploy_error, dlBusReleased,
              fbUnderLock]
      · rcases dlo with _ | dl
        · simp [process_deployment, hg, deploy_error, dlBusReleased,
                fbUnderLock]
        · by_cases hdl : dl = "skip"
          · simp [process_deployment, hg, hdl, dlBusReleased, fbUnderLock]
          · rcases updo with _ | upd
            · simp [process_deployment, hg, hdl, deploy_error,
                    dlBusReleased, fbUnderLock]
            · rcases ido with _ | nid
              · by_cases hid : (Option.none : Option String) = aid <;>
                  by_cases hskip : upd = "skip" <;>
                  simp [process_deployment, hg, hdl, hid, hskip,
                        deploy_error, dlBusReleased, fbUnderLock]
              · have hrest := deploy_rest_mutex_ok cfg
                  ⟨mw, some dl, some upd, some nid, cho⟩ (upd != "skip")
                  nid
                  (build_api_url cfg
                    (some ("deploymentBase/" ++ nid ++ "/feedback")))
                  ⟨s0, aid, some href,
                    some ⟨mw, some dl, some upd, some nid, cho⟩, fs, isucc⟩
                by_cases hid : some nid = aid <;>
                  by_cases hskip : upd = "skip"
                · simp [process_deployment, hg, hdl, hid, hskip,
                        dlBusReleased, fbUnderLock]
                · simpa [process_deployment, hg, hdl, hid, hskip]
                    using hrest
                · simpa [process_deployment, hg, hdl, hid, hskip]
                    using hrest
                · simpa [process_deployment, hg, hdl, hid, hskip]
                    using hrest

/-- Helper: the deployment section of the poll callback (mutex, then
process_deployment, then unlock). -/
lemma pull_deployment_mutex_ok (cfg : Config) (inp : DeployInputs) :
    dlBusReleased 0 (pull_deployment_events cfg inp) = true ∧
    fbUnderLock 0 (pull_deployment_events cfg inp) = true := by
  have h := deploy_events_mutex_ok cfg inp
  constructor
  · show dlBusReleased 0
      (Event.lock :: ((process_deployment cfg inp).events ++ [.unlock])) =
      true
    simp [dlBusReleased, dlBusReleased_append_unlock, h.1]
  · show fbUnderLock 0
      (Event.lock :: ((process_deployment cfg inp).events ++ [.unlock])) =
      true
    simp [fbUnderLock, fbUnderLock_append_unlock, h.2]

/-- Helper: process_cancel sends its feedback under the mutex. -/
lemma process_cancel_mutex_ok (cfg : Config) (inp : CancelInputs) :
    fbUnderLock 0 (process_cancel cfg inp).events = true := by
  rcases inp with ⟨ho, hr, sids, aid, s0, sw⟩
  cases ho
  · simp [process_cancel, fbUnderLock]
  · cases hr
    · simp [process_cancel, fbUnderLock]
    · rcases sids with _ | sid
      · simp [process_cancel, fbUnderLock]
      · by_cases hm : some sid = aid <;> cases s0 <;> cases sw <;>
          simp [process_cancel, fbUnderLock, hm]

/-- C6 (amended): the binary download transfers and the executor
invocation always run with the action mutex released, but the feedback
POSTs of every component (download worker, deployment handler, cancel
handler, install-complete callback, progress forwarder) are sent while
the mutex is held — contrary to the claimed no-I/O-under-mutex rule. -/
theorem C6_mutex_io_amended :
    (∀ (cfg : Config) (art : Artifact) (es : ActionState)
       (id : Option String) (st : ActionState) (ok : Bool)
       (atts : List DlAttempt),
       dlBusReleased 0 (download_thread cfg art es id st ok atts).events =
         true ∧
       fbUnderLock 0 (download_thread cfg art es id st ok atts).events =
         true) ∧
    (∀ (cfg : Config) (inp : DeployInputs),
       dlBusReleased 0 (pull_deployment_events cfg inp) = true ∧
       fbUnderLock 0 (pull_deployment_events cfg inp) = true) ∧
    (∀ (cfg : Config) (inp : CancelInputs),
       fbUnderLock 0 (process_cancel cfg inp).events = true) ∧
    (∀ (cfg : Config) (id : Option String) (ok : Bool),
       fbUnderLock 0 (install_complete_cb cfg id ok) = true) ∧
    (∀ (cfg : Config) (id : Option String) (m : String),
       fbUnderLock 0 (hawkbit_progress cfg id m) = true) :=
  ⟨fun cfg art es id st ok atts =>
     download_thread_mutex_ok cfg art es id st ok atts,
   fun cfg inp => pull_deployment_mutex_ok cfg inp,
   fun cfg inp => process_cancel_mutex_ok cfg inp,
   fun cfg id ok => by
     cases ok <;> simp [install_complete_cb, fbUnderLock],
   fun cfg id m => by simp [hawkbit_progress, fbUnderLock]⟩

/-- A successful single-attempt download of art0 (sha1 matches). -/
def dlAttemptOk0 : DlAttempt :=
  ⟨some 0, .ok ("d34db33f", 2097152), .downloading⟩

/-- C6 counterexample: the download worker sends the "Download complete"
progress feedback (and the later ones) while holding the action mutex
(part_020 lines 901-906), so network I/O does happen under the mutex. -/
theorem C6_mutex_io_counterexample :
    anyNetUnderLock 0
      (download_thread cfg0 art0 .processing (some "42") .downloading true
        [dlAttemptOk0]).events = true := by
  decide

/-- C8 (amended): in run-once mode the exit code is 0 iff the base poll
succeeded and the *last* performed step succeeded — the download/install
thread result when one was spawned, else the cancel result, else the
deployment result, else the identification result — because each section
of hawkbit_pull_cb overwrites the shared `res`; an earlier failure (e.g. a
failed identification followed by a successful deployment) is masked. -/
theorem C8_run_once_exit_amended (cfg : Config) (inp : PullInputs) :
    run_once_exit_code cfg inp = 0 ↔
      (inp.base_ok = true ∧
       (if inp.has_deploymentBase ∧
            (process_deployment cfg inp.deploy).spawned then
          inp.thread_result = true
        else if inp.has_cancelAction then
          (process_cancel cfg inp.cancel).res = true
        else if inp.has_deploymentBase then
          (process_deployment cfg inp.deploy).res = true
        else if inp.has_configData then inp.identify_ok = true
        else True)) := by
  rcases inp with ⟨b, hcd, hid, hdep, dep, hcan, can, thr⟩
  simp only [run_once_exit_code, pull_res]
  cases b <;> cases hcd <;> cases hid <;> cases hdep <;> cases hcan <;>
    cases thr <;>
    cases hsp : (process_deployment cfg dep).spawned <;>
    cases hre : (process_deployment cfg dep).res <;>
    cases hcre : (process_cancel cfg can).res <;>
    simp [hsp, hre, hcre]

/-- The single artifact node of the concrete deployment response. -/
def artJson0 : ArtJson :=
  { size := some 10, sha1 := some "d34db33f",
    download_href := some "https://h/fw.raucb",
    download_http_href := Option.none }

/-- The single chunk node of the concrete deployment response. -/
def chunkJson0 : ChunkJson :=
  { version := some "1.0", name := some "fw",
    artifacts := some [artJson0] }

/-- A deployment response that process_deployment accepts and schedules as
a staged download (spawning the download thread). -/
def deployInpOk : DeployInputs :=
  { state0 := .none, active_id := Option.none,
    href := some "http://10.10.0.254:8080/DEFAULT/controller/v1/test-target/deploymentBase/42",
    resp := some
      { maintenance_window := Option.none, download := some "forced",
        update := some "forced", idOpt := some "42",
        chunks := some [chunkJson0] },
    freespace := some 1000, install_success := true }

/-- Cancel inputs that are never consulted (no cancelAction link). -/
def cancelInpDummy : CancelInputs :=
  { href_ok := false, rest_ok := false, stop_id := Option.none,
    active_id := Option.none, state0 := .none, stateAfterWait := .none }

/-- A run-once tick whose identification fails but whose deployment,
download and installation succeed. -/
def pullInpIdentifyFail : PullInputs :=
  { base_ok := true, has_configData := true, identify_ok := false,
    has_deploymentBase := true, deploy := deployInpOk,
    has_cancelAction := false, cancel := cancelInpDummy,
    thread_result := true }

/-- C8 counterexample: the identification step fails, yet the process
exits with code 0 because the spawned download thread's successful result
overwrites `res` — refuting "exit code 0 iff every step succeeded". -/
theorem C8_run_once_exit_counterexample :
    run_once_exit_code cfg0 pullInpIdentifyFail = 0 ∧
    claimC8AllOk cfg0 pullInpIdentifyFail = false := by
  constructor
  · rfl
  · rfl

end RaucHawkbit
